import Mathlib

/-!
Verification of the task data-synchronization layer of the Task-Manager
repository (the `useTasks` hook in `src/unnamed/part_001`).

Shallow embedding conventions:
* A database row of the `tasks` table (`Task` in `src/lib/supabase.ts`) is a
  Lean structure.  Dates and timestamps (ISO strings compared through
  `new Date(...)`) are modelled as integers with the integer order.
* `null` / `undefined` fields are `Option`.
* A thrown `TaskError` is the `.error` branch of an `Except`; an operation
  that can throw to its caller returns `Except TaskError _`.
* React state cells (`tasks`, `stats`, `loading`, `error`) together with the
  `userId` prop and the `isMountedRef` guard form the `HookState` record; each
  `setState` site of the source becomes an effect function on `HookState`, and
  `Reachable` is the induced transition system.
-/

namespace TaskSync

inductive Priority where
  | low
  | normal
  | high
deriving DecidableEq, Repr

/-- A row of the `tasks` table, as in `src/lib/supabase.ts` (`type Task`). -/
structure Task where
  id : String
  user_id : String
  title : String
  description : Option String
  is_complete : Bool
  priority : Priority
  due_date : Option Int
  created_at : Int
  updated_at : Int
deriving DecidableEq, Repr

/-- The `stats` state of `useTasks`. -/
structure Stats where
  total : Nat
  completed : Nat
  pending : Nat
  overdue : Nat
deriving DecidableEq, Repr

/-- The thrown error class (`TaskError` in `src/lib/supabase.ts`); the
optional `code`/`details` payload is irrelevant to every claim and the
message carries the identity of the error. -/
structure TaskError where
  message : String
deriving DecidableEq, Repr

/-- A realtime `postgres_changes` payload: `INSERT`/`UPDATE` carry
`payload.new`, `DELETE` carries `payload.old` of which only `.id` is read. -/
inductive RealtimeEvent where
  | insert (row : Task)
  | update (row : Task)
  | delete (oldId : String)
deriving DecidableEq, Repr

/-- The realtime channel handler of `useTasks` (part_001 lines 87-104),
acting on the `tasks` collection:
`INSERT` checks `prev.some(t => t.id === newTask.id)` and otherwise prepends;
`UPDATE` maps, replacing the matching task by `payload.new`;
`DELETE` filters out the matching id. -/
def applyEvent (e : RealtimeEvent) (ts : List Task) : List Task :=
  match e with
  | .insert row => if ts.any (fun t => t.id == row.id) then ts else row :: ts
  | .update row => ts.map (fun t => if t.id == row.id then row else t)
  | .delete oldId => ts.filter (fun t => t.id != oldId)

/-- The overdue test of `fetchTasks`:
`!t.is_complete && t.due_date && new Date(t.due_date) < new Date()`. -/
def isOverdue (now : Int) (t : Task) : Bool :=
  !t.is_complete && (match t.due_date with
    | some d => decide (d < now)
    | none => false)

/-- The stats computation of `fetchTasks` (part_001 lines 39-46), with `now`
the value of `new Date()` at computation time. -/
def computeStats (now : Int) (ts : List Task) : Stats :=
  let total := ts.length
  let completed := (ts.filter (fun t => t.is_complete)).length
  let pending := total - completed
  let overdue := (ts.filter (isOverdue now)).length
  ⟨total, completed, pending, overdue⟩

/-- The ids of the tasks of a collection, in order. -/
def idsOf (ts : List Task) : List String :=
  ts.map Task.id

-- Basic facts about `applyEvent`.

theorem applyEvent_insert_mem (row : Task) (ts : List Task)
    (h : ts.any (fun t => t.id == row.id) = true) :
    applyEvent (.insert row) ts = ts := by
  simp [applyEvent, h]

theorem applyEvent_insert_new (row : Task) (ts : List Task)
    (h : ts.any (fun t => t.id == row.id) = false) :
    applyEvent (.insert row) ts = row :: ts := by
  simp [applyEvent, h]

theorem any_id_iff (ts : List Task) (x : String) :
    ts.any (fun t => t.id == x) = true ↔ ∃ t ∈ ts, t.id = x := by
  simp [List.any_eq_true]

theorem applyEvent_update_noop (row : Task) (ts : List Task)
    (h : ¬ ∃ t ∈ ts, t.id = row.id) :
    applyEvent (.update row) ts = ts := by
  simp only [applyEvent]
  conv_rhs => rw [← List.map_id ts]
  apply List.map_congr_left
  intro t ht
  have : ¬ t.id = row.id := fun hc => h ⟨t, ht, hc⟩
  simp [this]

theorem applyEvent_delete_noop (oldId : String) (ts : List Task)
    (h : ¬ ∃ t ∈ ts, t.id = oldId) :
    applyEvent (.delete oldId) ts = ts := by
  simp only [applyEvent]
  apply List.filter_eq_self.mpr
  intro t ht
  have : ¬ t.id = oldId := fun hc => h ⟨t, ht, hc⟩
  simp [this]

theorem applyEvent_delete_removes (oldId : String) (ts : List Task) :
    ∀ t ∈ applyEvent (.delete oldId) ts, t.id ≠ oldId := by
  intro t ht
  simp only [applyEvent, List.mem_filter, bne_iff_ne, ne_eq] at ht
  exact ht.2

theorem applyEvent_idem (e : RealtimeEvent) (ts : List Task) :
    applyEvent e (applyEvent e ts) = applyEvent e ts := by
  cases e with
  | insert row =>
    by_cases h : ts.any (fun t => t.id == row.id) = true
    · simp [applyEvent, h]
    · simp only [Bool.not_eq_true] at h
      rw [applyEvent_insert_new row ts h]
      simp [applyEvent]
  | update row =>
    simp only [applyEvent, List.map_map]
    apply List.map_congr_left
    intro t _
    by_cases h : t.id = row.id <;> simp [h]
  | delete oldId =>
    simp only [applyEvent]
    rw [List.filter_filter]
    apply List.filter_congr
    intro t _
    simp

-- Stats facts.

theorem overdue_le_sub (now : Int) (ts : List Task) :
    (ts.filter (isOverdue now)).length ≤
      ts.length - (ts.filter (fun t => t.is_complete)).length := by
  induction ts with
  | nil => simp
  | cons t ts ih =>
    have hle : (ts.filter (fun t => t.is_complete)).length ≤ ts.length :=
      List.length_filter_le _ _
    by_cases hc : t.is_complete = true
    · have hov : isOverdue now t = false := by simp [isOverdue, hc]
      simp only [List.filter_cons, hc, hov, if_true, Bool.false_eq_true, if_false,
        List.length_cons]
      omega
    · simp only [Bool.not_eq_true] at hc
      simp only [List.filter_cons, hc, Bool.false_eq_true, if_false, List.length_cons]
      by_cases hov : isOverdue now t = true
      · simp only [hov, if_true, List.length_cons]
        omega
      · simp only [Bool.not_eq_true] at hov
        simp only [hov, Bool.false_eq_true, if_false]
        omega

theorem computeStats_total (now : Int) (ts : List Task) :
    (computeStats now ts).total =
      (computeStats now ts).completed + (computeStats now ts).pending := by
  have hle : (ts.filter (fun t => t.is_complete)).length ≤ ts.length :=
    List.length_filter_le _ _
  simp only [computeStats]
  omega

theorem computeStats_overdue_le (now : Int) (ts : List Task) :
    (computeStats now ts).overdue ≤ (computeStats now ts).pending := by
  simpa only [computeStats] using overdue_le_sub now ts

/-- Consistency of a stats record: the two invariants of spec section 3. -/
def statsConsistent (st : Stats) : Prop :=
  st.total = st.completed + st.pending ∧ st.overdue ≤ st.pending

-- The optimistic collection transforms of the mutation operations.

/-- `Partial<CreateTaskInput>`: the `updates` argument of `updateTask`. -/
structure UpdatePatch where
  title : Option String := none
  description : Option String := none
  priority : Option Priority := none
  due_date : Option Int := none
deriving DecidableEq, Repr

/-- The object spread `{ ...task, ...updates }` of `updateTask`: fields
present in the patch override the row's fields; `id`, `user_id` and the
timestamps are not part of `Partial<CreateTaskInput>` and are kept. -/
def applyPatch (p : UpdatePatch) (t : Task) : Task :=
  { t with
    title := p.title.getD t.title
    description := match p.description with | some d => some d | none => t.description
    priority := p.priority.getD t.priority
    due_date := match p.due_date with | some d => some d | none => t.due_date }

theorem applyPatch_id (p : UpdatePatch) (t : Task) :
    (applyPatch p t).id = t.id := rfl

/-- Optimistic update of `updateTask` (part_001 lines 197-201). -/
def optUpdate (taskId : String) (p : UpdatePatch) (ts : List Task) : List Task :=
  ts.map (fun t => if t.id == taskId then applyPatch p t else t)

/-- Optimistic flip of `toggleTask` (part_001 lines 232-236). -/
def optToggle (taskId : String) (currentStatus : Bool) (ts : List Task) : List Task :=
  ts.map (fun t => if t.id == taskId then { t with is_complete := !currentStatus } else t)

/-- Revert of `toggleTask` on remote error (part_001 lines 246-250). -/
def revertToggle (taskId : String) (currentStatus : Bool) (ts : List Task) : List Task :=
  ts.map (fun t => if t.id == taskId then { t with is_complete := currentStatus } else t)

/-- Optimistic removal of `deleteTask` (part_001 line 278). -/
def optDelete (taskId : String) (ts : List Task) : List Task :=
  ts.filter (fun t => t.id != taskId)

-- The hook state machine.

/-- The state of one `useTasks` instance: the four React state cells, the
`userId` prop, and the `isMountedRef` guard flag. -/
structure HookState where
  userId : Option String
  mounted : Bool
  tasks : List Task
  stats : Stats
  loading : Bool
  error : Option String
deriving DecidableEq, Repr

/-- State after mount plus the synchronous prefix of the first effect run:
the `useState` initial values (`[]`, zero stats, `loading = true`,
`error = null`), `isMountedRef.current = true`, and the effect's
`if (!userId) { setLoading(false); return }`. -/
def initState (uid : Option String) : HookState :=
  { userId := uid, mounted := true, tasks := [], stats := ⟨0, 0, 0, 0⟩,
    loading := uid.isSome, error := none }

/-- The realtime handler: it is gated by `if (!isMountedRef.current) return`
(line 83) and only rewrites `tasks`; `stats` is not recomputed. -/
def pushEventEffect (e : RealtimeEvent) (s : HookState) : HookState :=
  if s.mounted then { s with tasks := applyEvent e s.tasks } else s

/-- The synchronous prefix of a `fetchTasks()` call whose closure captured
`uid`: `if (!userId) { setLoading(false); return }` and the initial
`setError(null)`, both unguarded. -/
def fetchInvokeEffect (uid : Option String) (s : HookState) : HookState :=
  match uid with
  | none => { s with loading := false }
  | some _ => { s with error := none }

/-- Completion of a successful fetch (part_001 lines 35-47 and the `finally`):
`setTasks(data)`, `setStats` from the formula, and `setLoading(false)`, each
guarded by `isMountedRef.current`. -/
def fetchSuccessEffect (data : List Task) (now : Int) (s : HookState) : HookState :=
  if s.mounted then
    { s with tasks := data, stats := computeStats now data, loading := false }
  else s

/-- Completion of a failed fetch: guarded `setError` and `setLoading(false)`. -/
def fetchFailureEffect (msg : String) (s : HookState) : HookState :=
  if s.mounted then { s with error := some msg, loading := false } else s

/-- The unguarded `setError(null)` at the start of a mutation's `try` block. -/
def clearErrorEffect (s : HookState) : HookState :=
  { s with error := none }

/-- The unguarded `setError(errorMessage)` in a mutation's `catch` block. -/
def setErrorEffect (msg : String) (s : HookState) : HookState :=
  { s with error := some msg }

/-- Synchronous local effect of a validated `updateTask` call:
`setError(null)` then the optimistic `setTasks`, both unguarded. -/
def updateStartEffect (taskId : String) (p : UpdatePatch) (s : HookState) : HookState :=
  { s with error := none, tasks := optUpdate taskId p s.tasks }

/-- Synchronous local effect of a `toggleTask` call: only the optimistic
`setTasks` (no `setError(null)` and no `userId` guard in the source). -/
def toggleStartEffect (taskId : String) (currentStatus : Bool) (s : HookState) : HookState :=
  { s with tasks := optToggle taskId currentStatus s.tasks }

/-- Completion of a failed `toggleTask` remote call: the unguarded revert
`setTasks` followed by the unguarded `setError` of the `catch` block. -/
def toggleFailEffect (taskId : String) (currentStatus : Bool) (msg : String)
    (s : HookState) : HookState :=
  { s with tasks := revertToggle taskId currentStatus s.tasks, error := some msg }

/-- Synchronous local effect of a validated `deleteTask` call:
`setError(null)` then the optimistic filtering `setTasks`, both unguarded. -/
def deleteStartEffect (taskId : String) (s : HookState) : HookState :=
  { s with error := none, tasks := optDelete taskId s.tasks }

/-- Completion of a failed `deleteTask` remote call: `setTasks(originalTasks)`
restoring the snapshot captured at call time, then the `catch` `setError`,
both unguarded. -/
def deleteRevertEffect (snapshot : List Task) (msg : String) (s : HookState) : HookState :=
  { s with tasks := snapshot, error := some msg }

/-- Net synchronous effect of the subscription effect re-running for a new
`userId` prop: the cleanup sets `isMountedRef.current = false` and the new
run immediately sets it back to `true`; `tasks`, `stats` and `error` are not
touched; `setLoading(false)` runs only when the new `userId` is absent. -/
def sessionSwitchEffect (newUid : Option String) (s : HookState) : HookState :=
  { s with
    userId := newUid
    mounted := true
    loading := if newUid.isSome then s.loading else false }

/-- Effect cleanup on unmount (part_001 lines 113-119). -/
def unmountEffect (s : HookState) : HookState :=
  { s with mounted := false }

/-- The reachable states of one `useTasks` instance.  Each constructor is one
state-writing transition of the source.  The hypotheses of `fetchSuccess`
record the contract of the remote store: the select is filtered with
`eq('user_id', uid)` and the `tasks` table is keyed by `id`, so the returned
rows are owned by `uid` and have pairwise distinct ids.  The snapshot restored
by `deleteRevert` is the `tasks` value of the state in which `deleteTask` was
called, hence of a reachable state. -/
inductive Reachable : HookState → Prop where
  | init (uid : Option String) : Reachable (initState uid)
  | push (e : RealtimeEvent) (s : HookState) :
      Reachable s → Reachable (pushEventEffect e s)
  | fetchInvoke (uid : Option String) (s : HookState) :
      Reachable s → Reachable (fetchInvokeEffect uid s)
  | fetchSuccess (uid : String) (data : List Task) (now : Int) (s : HookState) :
      Reachable s → (∀ t ∈ data, t.user_id = uid) → (idsOf data).Nodup →
      Reachable (fetchSuccessEffect data now s)
  | fetchFailure (msg : String) (s : HookState) :
      Reachable s → Reachable (fetchFailureEffect msg s)
  | clearError (s : HookState) :
      Reachable s → Reachable (clearErrorEffect s)
  | mutFail (msg : String) (s : HookState) :
      Reachable s → Reachable (setErrorEffect msg s)
  | updateStart (taskId : String) (p : UpdatePatch) (s : HookState) :
      Reachable s → Reachable (updateStartEffect taskId p s)
  | toggleStart (taskId : String) (cur : Bool) (s : HookState) :
      Reachable s → Reachable (toggleStartEffect taskId cur s)
  | toggleFail (taskId : String) (cur : Bool) (msg : String) (s : HookState) :
      Reachable s → Reachable (toggleFailEffect taskId cur msg s)
  | deleteStart (taskId : String) (s : HookState) :
      Reachable s → Reachable (deleteStartEffect taskId s)
  | deleteRevert (msg : String) (s snap : HookState) :
      Reachable s → Reachable snap → Reachable (deleteRevertEffect snap.tasks msg s)
  | sessionSwitch (newUid : Option String) (s : HookState) :
      Reachable s → Reachable (sessionSwitchEffect newUid s)
  | unmount (s : HookState) :
      Reachable s → Reachable (unmountEffect s)

-- Preservation of the id sequence by the collection transforms.

theorem idsOf_map_of_id_eq (f : Task → Task) (ts : List Task)
    (h : ∀ t ∈ ts, (f t).id = t.id) : idsOf (ts.map f) = idsOf ts := by
  simp only [idsOf, List.map_map]
  apply List.map_congr_left
  intro t ht
  simpa using h t ht

theorem idsOf_optUpdate (taskId : String) (p : UpdatePatch) (ts : List Task) :
    idsOf (optUpdate taskId p ts) = idsOf ts := by
  apply idsOf_map_of_id_eq
  intro t _
  by_cases h : (t.id == taskId) = true <;> simp [h, applyPatch_id]

theorem idsOf_optToggle (taskId : String) (cur : Bool) (ts : List Task) :
    idsOf (optToggle taskId cur ts) = idsOf ts := by
  apply idsOf_map_of_id_eq
  intro t _
  by_cases h : (t.id == taskId) = true <;> simp [h]

theorem idsOf_revertToggle (taskId : String) (cur : Bool) (ts : List Task) :
    idsOf (revertToggle taskId cur ts) = idsOf ts := by
  apply idsOf_map_of_id_eq
  intro t _
  by_cases h : (t.id == taskId) = true <;> simp [h]

theorem nodup_idsOf_filter (p : Task → Bool) (ts : List Task)
    (h : (idsOf ts).Nodup) : (idsOf (ts.filter p)).Nodup :=
  List.Nodup.sublist (List.Sublist.map Task.id (List.filter_sublist ts)) h

theorem nodup_applyEvent (e : RealtimeEvent) (ts : List Task)
    (h : (idsOf ts).Nodup) : (idsOf (applyEvent e ts)).Nodup := by
  cases e with
  | insert row =>
    by_cases hm : ts.any (fun t => t.id == row.id) = true
    · simpa [applyEvent, hm]
    · simp only [Bool.not_eq_true] at hm
      rw [applyEvent_insert_new row ts hm]
      simp only [idsOf, List.map_cons]
      refine List.nodup_cons.mpr ⟨?_, h⟩
      intro hmem
      obtain ⟨t, ht, hid⟩ := List.mem_map.mp hmem
      have : ts.any (fun t => t.id == row.id) = true :=
        (any_id_iff ts row.id).mpr ⟨t, ht, hid⟩
      simp [this] at hm
  | update row =>
    simp only [applyEvent]
    rw [idsOf_map_of_id_eq]
    · exact h
    · intro t _
      by_cases hid : (t.id == row.id) = true
      · simp only [hid, if_true]
        exact (eq_of_beq hid).symm
      · simp [hid]
  | delete oldId =>
    exact nodup_idsOf_filter _ ts h

/-- C2: for every reachable state of the synchronizer — after any sequence of
initial fetch, push-event merges, and the optimistic or reverted local effects
of the mutation operations — the task ids of the local collection are pairwise
distinct. -/
theorem reachable_no_duplicate_ids (s : HookState) (h : Reachable s) :
    (idsOf s.tasks).Nodup := by
  induction h with
  | init uid => simp [initState, idsOf]
  | push e s hs ih =>
    by_cases hm : s.mounted = true
    · simpa [pushEventEffect, hm] using nodup_applyEvent e s.tasks ih
    · simp only [Bool.not_eq_true] at hm
      simpa [pushEventEffect, hm] using ih
  | fetchInvoke uid s hs ih =>
    cases uid <;> simpa [fetchInvokeEffect] using ih
  | fetchSuccess uid data now s hs hown hnd ih =>
    by_cases hm : s.mounted = true
    · simpa [fetchSuccessEffect, hm] using hnd
    · simp only [Bool.not_eq_true] at hm
      simpa [fetchSuccessEffect, hm] using ih
  | fetchFailure msg s hs ih =>
    by_cases hm : s.mounted = true
    · simpa [fetchFailureEffect, hm] using ih
    · simp only [Bool.not_eq_true] at hm
      simpa [fetchFailureEffect, hm] using ih
  | clearError s hs ih => simpa [clearErrorEffect] using ih
  | mutFail msg s hs ih => simpa [setErrorEffect] using ih
  | updateStart taskId p s hs ih =>
    simpa [updateStartEffect, idsOf_optUpdate] using ih
  | toggleStart taskId cur s hs ih =>
    simpa [toggleStartEffect, idsOf_optToggle] using ih
  | toggleFail taskId cur msg s hs ih =>
    simpa [toggleFailEffect, idsOf_revertToggle] using ih
  | deleteStart taskId s hs ih =>
    simpa [deleteStartEffect, optDelete] using nodup_idsOf_filter _ s.tasks ih
  | deleteRevert msg s snap hs hsnap ih ihsnap =>
    simpa [deleteRevertEffect] using ihsnap
  | sessionSwitch newUid s hs ih =>
    simpa [sessionSwitchEffect] using ih
  | unmount s hs ih =>
    simpa [unmountEffect] using ih

/-- Witness for C2: a concrete reachable state (an insert event merged into a
freshly mounted hook) has duplicate-free ids. -/
theorem reachable_no_duplicate_ids_witness :
    (idsOf (pushEventEffect
      (RealtimeEvent.insert ⟨"t1", "A", "Buy milk", none, false, .normal, some 5, 0, 0⟩)
      (initState (some "A"))).tasks).Nodup :=
  reachable_no_duplicate_ids _ (Reachable.push _ _ (Reachable.init _))

/-- C3: in every reachable state the exposed stats satisfy
`total = completed + pending` and `overdue ≤ pending`. -/
theorem reachable_stats_consistent (s : HookState) (h : Reachable s) :
    statsConsistent s.stats := by
  induction h with
  | init uid => exact ⟨rfl, Nat.le_refl 0⟩
  | push e s hs ih =>
    by_cases hm : s.mounted = true <;>
      simp_all [pushEventEffect]
  | fetchInvoke uid s hs ih =>
    cases uid <;> simpa [fetchInvokeEffect] using ih
  | fetchSuccess uid data now s hs hown hnd ih =>
    by_cases hm : s.mounted = true
    · simpa [fetchSuccessEffect, hm, statsConsistent] using
        ⟨computeStats_total now data, computeStats_overdue_le now data⟩
    · simp only [Bool.not_eq_true] at hm
      simpa [fetchSuccessEffect, hm] using ih
  | fetchFailure msg s hs ih =>
    by_cases hm : s.mounted = true <;> simp_all [fetchFailureEffect]
  | clearError s hs ih => simpa [clearErrorEffect] using ih
  | mutFail msg s hs ih => simpa [setErrorEffect] using ih
  | updateStart taskId p s hs ih => simpa [updateStartEffect] using ih
  | toggleStart taskId cur s hs ih => simpa [toggleStartEffect] using ih
  | toggleFail taskId cur msg s hs ih => simpa [toggleFailEffect] using ih
  | deleteStart taskId s hs ih => simpa [deleteStartEffect] using ih
  | deleteRevert msg s snap hs hsnap ih ihsnap => simpa [deleteRevertEffect] using ih
  | sessionSwitch newUid s hs ih => simpa [sessionSwitchEffect] using ih
  | unmount s hs ih => simpa [unmountEffect] using ih

/-- Witness for C3: the stats of a concrete reachable state (after a
successful fetch of one overdue task) are consistent. -/
theorem reachable_stats_consistent_witness :
    statsConsistent (fetchSuccessEffect
      [⟨"t1", "A", "Buy milk", none, false, .normal, some 5, 0, 0⟩] 10
      (initState (some "A"))).stats :=
  reachable_stats_consistent _
    (Reachable.fetchSuccess "A" _ 10 _ (Reachable.init _) (by decide) (by decide))

/-- C1: applying the same push change event twice to the local collection
yields the same collection as applying it once; moreover an insert whose row
id already occurs leaves the collection unchanged and otherwise prepends the
row, an update replaces the task matching the pushed row's id and is a no-op
when no task matches, and a delete removes the task with the matching id and
is a no-op when it is absent. -/
theorem merge_idempotent (ts : List Task) (row : Task) (oldId : String)
    (e : RealtimeEvent) :
    applyEvent e (applyEvent e ts) = applyEvent e ts ∧
    ((∃ t ∈ ts, t.id = row.id) → applyEvent (.insert row) ts = ts) ∧
    (¬(∃ t ∈ ts, t.id = row.id) → applyEvent (.insert row) ts = row :: ts) ∧
    (applyEvent (.update row) ts
      = ts.map (fun t => if t.id == row.id then row else t)) ∧
    (¬(∃ t ∈ ts, t.id = row.id) → applyEvent (.update row) ts = ts) ∧
    (∀ t ∈ applyEvent (.delete oldId) ts, t.id ≠ oldId) ∧
    (¬(∃ t ∈ ts, t.id = oldId) → applyEvent (.delete oldId) ts = ts) := by
  refine ⟨applyEvent_idem e ts, ?_, ?_, rfl, applyEvent_update_noop row ts,
    applyEvent_delete_removes oldId ts, applyEvent_delete_noop oldId ts⟩
  · intro hex
    exact applyEvent_insert_mem row ts ((any_id_iff ts row.id).mpr hex)
  · intro hnex
    apply applyEvent_insert_new
    by_cases h : ts.any (fun t => t.id == row.id) = true
    · exact absurd ((any_id_iff ts row.id).mp h) hnex
    · simpa using h

/-- Concrete collection and event payloads for the C1 witness. -/
def tsC1 : List Task :=
  [⟨"t1", "A", "Buy milk", none, false, .normal, some 5, 0, 0⟩]

def rowC1 : Task := ⟨"t2", "A", "Walk dog", none, true, .high, none, 1, 1⟩

/-- Witness for C1 at a concrete collection: the double application equals the
single one, the fresh insert prepends, and update/delete on an absent id are
no-ops. -/
theorem merge_idempotent_witness :
    applyEvent (.insert rowC1) (applyEvent (.insert rowC1) tsC1)
      = applyEvent (.insert rowC1) tsC1 ∧
    applyEvent (.insert rowC1) tsC1 = rowC1 :: tsC1 ∧
    applyEvent (.update rowC1) tsC1 = tsC1 ∧
    applyEvent (.delete "t9") tsC1 = tsC1 :=
  ⟨(merge_idempotent tsC1 rowC1 "t9" (.insert rowC1)).1,
    (merge_idempotent tsC1 rowC1 "t9" (.insert rowC1)).2.2.1 (by decide),
    (merge_idempotent tsC1 rowC1 "t9" (.insert rowC1)).2.2.2.2.1 (by decide),
    (merge_idempotent tsC1 rowC1 "t9" (.insert rowC1)).2.2.2.2.2.2 (by decide)⟩

-- C4: stats are NOT recomputed after push-event merges or mutation effects.

def rowC4 : Task := ⟨"t1", "A", "Buy milk", none, false, .normal, none, 0, 0⟩

/-- Counterexample to C4: merging an insert push event into a freshly mounted
hook leaves the exposed stats at their previous value (the initial zeros),
which differs from the stats formula applied to the now-visible collection —
the realtime handler only calls `setTasks`, never `setStats`. -/
theorem stats_stale_after_merge_counterexample :
    Reachable (pushEventEffect (.insert rowC4) (initState (some "A"))) ∧
    (pushEventEffect (.insert rowC4) (initState (some "A"))).stats ≠
      computeStats 0 (pushEventEffect (.insert rowC4) (initState (some "A"))).tasks := by
  exact ⟨Reachable.push _ _ (Reachable.init _), by decide⟩

/-- C4 amended: push-event merges and the local (optimistic or revert)
effects of update, toggle and delete leave the stats unchanged — possibly
stale relative to the visible collection; the stats are recomputed from the
collection only by a successful fetch (the initial load, `createTask`'s
refresh, `updateTask`'s revert refresh, or a manual refresh), and then they
equal the derivation formula applied to the new collection. -/
theorem stats_recompute_only_on_fetch (s : HookState) (e : RealtimeEvent)
    (taskId : String) (p : UpdatePatch) (cur : Bool) (msg : String)
    (data : List Task) (now : Int) :
    (pushEventEffect e s).stats = s.stats ∧
    (updateStartEffect taskId p s).stats = s.stats ∧
    (toggleStartEffect taskId cur s).stats = s.stats ∧
    (toggleFailEffect taskId cur msg s).stats = s.stats ∧
    (deleteStartEffect taskId s).stats = s.stats ∧
    (deleteRevertEffect data msg s).stats = s.stats ∧
    (s.mounted = true →
      (fetchSuccessEffect data now s).stats =
        computeStats now (fetchSuccessEffect data now s).tasks) := by
  refine ⟨?_, rfl, rfl, rfl, rfl, rfl, ?_⟩
  · by_cases hm : s.mounted = true <;> simp [pushEventEffect, hm]
  · intro hm
    simp [fetchSuccessEffect, hm]

/-- Witness for C4-amended at a concrete state: the merge leaves stats
untouched and a successful fetch recomputes them from the fetched rows. -/
theorem stats_recompute_only_on_fetch_witness :
    (pushEventEffect (.insert rowC4) (initState (some "A"))).stats
      = (initState (some "A")).stats ∧
    (fetchSuccessEffect [rowC4] 0 (initState (some "A"))).stats =
      computeStats 0 (fetchSuccessEffect [rowC4] 0 (initState (some "A"))).tasks :=
  ⟨(stats_recompute_only_on_fetch (initState (some "A")) (.insert rowC4) "t1" {}
      false "m" [rowC4] 0).1,
    (stats_recompute_only_on_fetch (initState (some "A")) (.insert rowC4) "t1" {}
      false "m" [rowC4] 0).2.2.2.2.2.2 (by decide)⟩

-- C5: session switching does NOT clear the previous user's tasks.

def taskA5 : Task := ⟨"a1", "A", "Task of A", none, false, .normal, none, 0, 0⟩

/-- The state reached by: mount with user A, A's initial fetch succeeds with
one row, then the session switches to user B. -/
def leakState : HookState :=
  sessionSwitchEffect (some "B")
    (fetchSuccessEffect [taskA5] 0
      (fetchInvokeEffect (some "A") (initState (some "A"))))

/-- Counterexample to C5: after switching the session from user A to user B,
A's task is still present in the collection, so a reachable state exists in
which a task owned by a previous userId is present under the new userId —
the subscription effect re-run never resets the collection. -/
theorem session_leak_counterexample :
    Reachable leakState ∧ leakState.userId = some "B" ∧
    taskA5 ∈ leakState.tasks ∧ taskA5.user_id = "A" ∧ "A" ≠ "B" := by
  refine ⟨?_, by decide, by decide, rfl, by decide⟩
  exact Reachable.sessionSwitch _ _
    (Reachable.fetchSuccess "A" _ 0 _
      (Reachable.fetchInvoke _ _ (Reachable.init _)) (by decide) (by decide))

/-- C5 amended: switching the session does not clear the previous user's
tasks: the switch leaves `tasks`, `stats` and `error` unchanged, so the
previous user's rows stay visible under the new userId until a fetch for the
new user completes, which replaces the collection wholesale with rows all
owned by the new user. -/
theorem session_switch_keeps_tasks (newUid : Option String) (s : HookState)
    (uid : String) (data : List Task) (now : Int) :
    (sessionSwitchEffect newUid s).tasks = s.tasks ∧
    (sessionSwitchEffect newUid s).stats = s.stats ∧
    (sessionSwitchEffect newUid s).error = s.error ∧
    (sessionSwitchEffect newUid s).userId = newUid ∧
    (s.mounted = true → (fetchSuccessEffect data now s).tasks = data) ∧
    (s.mounted = true → (∀ t ∈ data, t.user_id = uid) →
      ∀ t ∈ (fetchSuccessEffect data now s).tasks, t.user_id = uid) := by
  refine ⟨rfl, rfl, rfl, rfl, ?_, ?_⟩
  · intro hm
    simp [fetchSuccessEffect, hm]
  · intro hm hown
    simpa [fetchSuccessEffect, hm] using hown

/-- Witness for C5-amended at a concrete state. -/
theorem session_switch_keeps_tasks_witness :
    (sessionSwitchEffect (some "B") (initState (some "A"))).tasks
      = (initState (some "A")).tasks ∧
    (∀ t ∈ (fetchSuccessEffect [taskA5] 0 (initState (some "A"))).tasks,
      t.user_id = "A") :=
  ⟨(session_switch_keeps_tasks (some "B") (initState (some "A")) "A" [taskA5] 0).1,
    (session_switch_keeps_tasks (some "B") (initState (some "A")) "A" [taskA5] 0).2.2.2.2.2
      (by decide) (by decide)⟩

-- C9: the still-relevant flag does NOT gate every state-setting callback.

/-- The state reached by: mount with user A, a toggle is issued (optimistic
flip applied), then the component unmounts while the toggle's remote call is
still in flight. -/
def tornDownState : HookState :=
  unmountEffect (toggleStartEffect "t1" false (initState (some "A")))

/-- Counterexample to C9: the completion of the in-flight failing toggle is
not gated by the still-relevant flag — although the flag is cleared, it still
rewrites the error slot (revert `setTasks` and catch `setError` carry no
`isMountedRef` check), so a state update is applied after teardown. -/
theorem teardown_gate_counterexample :
    Reachable tornDownState ∧ tornDownState.mounted = false ∧
    tornDownState.error = none ∧
    Reachable (toggleFailEffect "t1" false "Failed to toggle task" tornDownState) ∧
    (toggleFailEffect "t1" false "Failed to toggle task" tornDownState).error
      = some "Failed to toggle task" := by
  refine ⟨?_, rfl, rfl, ?_, rfl⟩
  · exact Reachable.unmount _ (Reachable.toggleStart _ _ _ (Reachable.init _))
  · exact Reachable.toggleFail _ _ _ _
      (Reachable.unmount _ (Reachable.toggleStart _ _ _ (Reachable.init _)))

/-- C9 amended: the still-relevant flag gates the initial-fetch completions
and the push events — once the flag is cleared those apply no state update —
but the completions of in-flight mutations are not gated: toggle's failure
completion, delete's snapshot restore and the mutation catch blocks still
write `tasks` and `error` after the flag is cleared. -/
theorem teardown_gating_gap (s : HookState) (e : RealtimeEvent)
    (data : List Task) (now : Int) (msg : String) (taskId : String) (cur : Bool)
    (hm : s.mounted = false) :
    pushEventEffect e s = s ∧
    fetchSuccessEffect data now s = s ∧
    fetchFailureEffect msg s = s ∧
    (toggleFailEffect taskId cur msg s).error = some msg ∧
    (setErrorEffect msg s).error = some msg ∧
    (deleteRevertEffect data msg s).tasks = data := by
  refine ⟨?_, ?_, ?_, rfl, rfl, rfl⟩ <;>
    simp [pushEventEffect, fetchSuccessEffect, fetchFailureEffect, hm]

/-- Witness for C9-amended at the concrete torn-down state. -/
theorem teardown_gating_gap_witness :
    pushEventEffect (.insert ⟨"x1", "A", "X", none, false, .normal, none, 0, 0⟩)
      tornDownState = tornDownState ∧
    (setErrorEffect "Failed to toggle task" tornDownState).error
      = some "Failed to toggle task" :=
  ⟨(teardown_gating_gap tornDownState
      (.insert ⟨"x1", "A", "X", none, false, .normal, none, 0, 0⟩) [] 0
      "Failed to toggle task" "t1" false (by decide)).1,
    (teardown_gating_gap tornDownState
      (.insert ⟨"x1", "A", "X", none, false, .normal, none, 0, 0⟩) [] 0
      "Failed to toggle task" "t1" false (by decide)).2.2.2.2.1⟩

-- The mutation operations of `useTasks` at the call/completion level.

/-- JavaScript `String.prototype.trim()`: removes leading and trailing
whitespace.  Modelled directly on the character list (rather than through
`String.trim`'s byte positions) to keep evaluation and proofs elementary. -/
def jsTrim (s : String) : String :=
  ⟨(((s.data.dropWhile Char.isWhitespace).reverse.dropWhile
      Char.isWhitespace).reverse)⟩

/-- `CreateTaskInput` of `src/lib/supabase.ts`. -/
structure CreateTaskInput where
  title : String
  description : Option String := none
  priority : Option Priority := none
  due_date : Option Int := none
deriving DecidableEq, Repr

/-- The `newTask` row handed to the remote insert by `createTask`
(part_001 lines 142-148). -/
structure NewTaskRow where
  user_id : String
  title : String
  description : Option String
  priority : Priority
  due_date : Option Int
deriving DecidableEq, Repr

/-- The prefix of `createTask` (part_001 lines 122-148) up to the remote
call: the `userId` guard and the three input checks run before any remote
state is touched; an `.error` is a `TaskError` thrown to the caller with no
remote call issued and no local change (`createTask` has no optimistic
effect); an `.ok` is the `newTask` record handed to the remote insert.
The description check reads `input.description.length` — the untrimmed
length — while the inserted row carries the trimmed description
(`input.description?.trim() || null`). -/
def createTask (userId : Option String) (input : CreateTaskInput) :
    Except TaskError NewTaskRow :=
  match userId with
  | none => .error ⟨"User not authenticated"⟩
  | some uid =>
    let title := jsTrim input.title
    if title = "" then .error ⟨"Task title is required"⟩
    else if 500 < title.length then
      .error ⟨"Task title must be 500 characters or less"⟩
    else match input.description with
      | some d =>
        if d ≠ "" ∧ 2000 < d.length then
          .error ⟨"Task description must be 2000 characters or less"⟩
        else
          .ok ⟨uid, title, if jsTrim d = "" then none else some (jsTrim d),
            input.priority.getD .normal, input.due_date⟩
      | none => .ok ⟨uid, title, none, input.priority.getD .normal, input.due_date⟩

/-- The remote update issued by `updateTask`:
`.update(updates).eq('id', taskId).eq('user_id', userId)`; the `fields`
payload is the `updates` patch, verbatim. -/
structure UpdateRemoteReq where
  taskId : String
  user_id : String
  fields : UpdatePatch
deriving DecidableEq, Repr

/-- Result of the synchronous prefix of a validated `updateTask` call. -/
structure UpdateStartResult where
  tasks : List Task
  error : Option String
  request : UpdateRemoteReq
deriving DecidableEq, Repr

/-- The prefix of `updateTask` (part_001 lines 176-207) up to the remote
call: the `userId` guard, the title validation on the trimmed value, then
`setError(null)`, the optimistic `setTasks` replacing the matching task by
`{ ...task, ...updates }`, and the remote `.update(updates)` request that
carries the patch verbatim. -/
def updateTaskStart (userId : Option String) (taskId : String) (p : UpdatePatch)
    (ts : List Task) : Except TaskError UpdateStartResult :=
  match userId with
  | none => .error ⟨"User not authenticated"⟩
  | some uid =>
    match p.title with
    | some t0 =>
      let title := jsTrim t0
      if title = "" then .error ⟨"Task title cannot be empty"⟩
      else if 500 < title.length then
        .error ⟨"Task title must be 500 characters or less"⟩
      else .ok ⟨optUpdate taskId p ts, none, ⟨taskId, uid, p⟩⟩
    | none => .ok ⟨optUpdate taskId p ts, none, ⟨taskId, uid, p⟩⟩

/-- The remote update issued by `toggleTask`:
`.update({is_complete: !currentStatus}).eq('id', taskId).eq('user_id', userId)`.
The source never checks `userId`, so the filter value may be absent. -/
structure ToggleRemoteReq where
  taskId : String
  user_id : Option String
  is_complete : Bool
deriving DecidableEq, Repr

/-- Final local state and issued request of a completed `toggleTask` call. -/
structure ToggleResult where
  tasks : List Task
  error : Option String
  request : ToggleRemoteReq
deriving DecidableEq, Repr

/-- `toggleTask` (part_001 lines 228-264) run to completion, with
`remoteError` the outcome of the awaited remote update.  There is no `userId`
guard and no validation: the optimistic flip is applied and the remote update
issued unconditionally.  On remote error the flip is reverted and the catch
block records the thrown message; the catch does not re-throw, so the result
is always `.ok` — the caller never sees an exception.  On success the error
slot is left as it was (`toggleTask` has no `setError(null)`). -/
def toggleTask (userId : Option String) (taskId : String) (currentStatus : Bool)
    (remoteError : Option String) (tasks : List Task) (error : Option String) :
    Except TaskError ToggleResult :=
  let optimistic := optToggle taskId currentStatus tasks
  let req : ToggleRemoteReq := ⟨taskId, userId, !currentStatus⟩
  match remoteError with
  | none => .ok ⟨optimistic, error, req⟩
  | some _ => .ok ⟨revertToggle taskId currentStatus optimistic,
      some "Failed to toggle task", req⟩

-- Helper facts about the optimistic transforms.

theorem mem_idsOf (ts : List Task) (x : String) :
    x ∈ idsOf ts ↔ ∃ t ∈ ts, t.id = x := by
  simp [idsOf, List.mem_map]

theorem optToggle_complete (taskId : String) (cur : Bool) (ts : List Task) :
    ∀ t ∈ optToggle taskId cur ts, t.id = taskId → t.is_complete = !cur := by
  intro t ht hid
  simp only [optToggle, List.mem_map] at ht
  obtain ⟨u, hu, hue⟩ := ht
  subst hue
  by_cases h : (u.id == taskId) = true
  · simp [h]
  · simp only [h, Bool.false_eq_true, if_false] at hid
    exact absurd hid (by simpa using h)

theorem revertToggle_complete (taskId : String) (cur : Bool) (ts : List Task) :
    ∀ t ∈ revertToggle taskId cur ts, t.id = taskId → t.is_complete = cur := by
  intro t ht hid
  simp only [revertToggle, List.mem_map] at ht
  obtain ⟨u, hu, hue⟩ := ht
  subst hue
  by_cases h : (u.id == taskId) = true
  · simp [h]
  · simp only [h, Bool.false_eq_true, if_false] at hid
    exact absurd hid (by simpa using h)

theorem exists_id_optToggle (taskId : String) (cur : Bool) (ts : List Task)
    (h : ∃ t ∈ ts, t.id = taskId) :
    ∃ t ∈ optToggle taskId cur ts, t.id = taskId := by
  rw [← mem_idsOf, idsOf_optToggle, mem_idsOf]
  exact h

theorem exists_id_revertToggle (taskId : String) (cur : Bool) (ts : List Task)
    (h : ∃ t ∈ ts, t.id = taskId) :
    ∃ t ∈ revertToggle taskId cur ts, t.id = taskId := by
  rw [← mem_idsOf, idsOf_revertToggle, mem_idsOf]
  exact h

/-- C6: for a task `T` with `complete = false` in the collection,
`toggle(T.id, false)` makes the task visible as complete immediately — in the
optimistic collection, before the remote call resolves, every entry with id
`T.id` has `is_complete = true`; if the remote update then fails, in the
final collection every entry with id `T.id` has `is_complete = false` again
and the error slot holds a message; and for every remote outcome the call
returns normally — the error is never propagated to the caller. -/
theorem toggle_optimistic_rollback (uid : Option String) (tasks : List Task)
    (err0 : Option String) (T : Task) (rmsg : String)
    (hT : T ∈ tasks) (hc : T.is_complete = false) :
    (∃ t ∈ optToggle T.id false tasks, t.id = T.id) ∧
    (∀ t ∈ optToggle T.id false tasks, t.id = T.id → t.is_complete = true) ∧
    (∀ rerr : Option String,
      ∃ res, toggleTask uid T.id false rerr tasks err0 = .ok res) ∧
    (∃ res, toggleTask uid T.id false (some rmsg) tasks err0 = .ok res ∧
      (∀ t ∈ res.tasks, t.id = T.id → t.is_complete = false) ∧
      (∃ t ∈ res.tasks, t.id = T.id) ∧
      res.error = some "Failed to toggle task") := by
  refine ⟨exists_id_optToggle T.id false tasks ⟨T, hT, rfl⟩, ?_, ?_, ?_⟩
  · intro t ht hid
    exact optToggle_complete T.id false tasks t ht hid
  · intro rerr
    cases rerr <;> exact ⟨_, rfl⟩
  · refine ⟨_, rfl, ?_, ?_, rfl⟩
    · intro t ht hid
      exact revertToggle_complete T.id false _ t ht hid
    · exact exists_id_revertToggle T.id false _
        (exists_id_optToggle T.id false tasks ⟨T, hT, rfl⟩)

/-- Witness for C6: a concrete incomplete task, toggled while the remote
update fails. -/
theorem toggle_optimistic_rollback_witness :
    (∀ t ∈ optToggle "t1" false
        [⟨"t1", "A", "Buy milk", none, false, .normal, none, 0, 0⟩],
      t.id = "t1" → t.is_complete = true) ∧
    (∃ res, toggleTask (some "A") "t1" false (some "network down")
        [⟨"t1", "A", "Buy milk", none, false, .normal, none, 0, 0⟩] none = .ok res ∧
      (∀ t ∈ res.tasks, t.id = "t1" → t.is_complete = false) ∧
      (∃ t ∈ res.tasks, t.id = "t1") ∧
      res.error = some "Failed to toggle task") :=
  ⟨(toggle_optimistic_rollback (some "A")
      [⟨"t1", "A", "Buy milk", none, false, .normal, none, 0, 0⟩] none
      ⟨"t1", "A", "Buy milk", none, false, .normal, none, 0, 0⟩ "network down"
      (by decide) rfl).2.1,
    (toggle_optimistic_rollback (some "A")
      [⟨"t1", "A", "Buy milk", none, false, .normal, none, 0, 0⟩] none
      ⟨"t1", "A", "Buy milk", none, false, .normal, none, 0, 0⟩ "network down"
      (by decide) rfl).2.2.2⟩

-- C7: create-side validation.

/-- A description of raw length 2001 whose trimmed length is 2000: a leading
space followed by 2000 characters. -/
def dC7 : String := String.mk (' ' :: List.replicate 2000 'x')

def inputC7 : CreateTaskInput := { title := "Buy milk", description := some dC7 }

theorem dropWhile_replicate_x (n : Nat) :
    (List.replicate n 'x').dropWhile Char.isWhitespace = List.replicate n 'x' := by
  cases n with
  | zero => rfl
  | succ n => simp [List.replicate_succ, List.dropWhile_cons]

theorem dC7_len : dC7.length = 2001 := by
  show (' ' :: List.replicate 2000 'x').length = 2001
  rw [List.length_cons, List.length_replicate]

theorem jsTrim_dC7 : jsTrim dC7 = String.mk (List.replicate 2000 'x') := by
  show String.mk ((((' ' :: List.replicate 2000 'x').dropWhile
      Char.isWhitespace).reverse.dropWhile Char.isWhitespace).reverse) = _
  rw [List.dropWhile_cons]
  rw [show Char.isWhitespace ' ' = true from rfl]
  rw [if_pos rfl]
  rw [dropWhile_replicate_x, List.reverse_replicate, dropWhile_replicate_x,
    List.reverse_replicate]

theorem jsTrim_dC7_len : (jsTrim dC7).length = 2000 := by
  rw [jsTrim_dC7]
  show (List.replicate 2000 'x').length = 2000
  rw [List.length_replicate]

theorem dC7_ne : dC7 ≠ "" := by
  intro h
  exact List.noConfusion (congrArg String.data h)

/-- Counterexample to C7: `inputC7` passes every check the claim states —
its trimmed title is non-empty and short, and its trimmed description has
exactly 2000 characters, not more — yet `createTask` raises the description
validation error, because the source checks the untrimmed length
(`input.description.length`), which is 2001. -/
theorem create_validation_counterexample :
    jsTrim inputC7.title ≠ "" ∧ (jsTrim inputC7.title).length ≤ 500 ∧
    inputC7.description = some dC7 ∧ (jsTrim dC7).length ≤ 2000 ∧
    createTask (some "A") inputC7 =
      .error ⟨"Task description must be 2000 characters or less"⟩ := by
  refine ⟨by decide, by decide, rfl, ?_, ?_⟩
  · rw [jsTrim_dC7_len]
  · have ht1 : ¬ (jsTrim "Buy milk" = "") := by decide
    have ht2 : ¬ (500 < (jsTrim "Buy milk").length) := by decide
    have hd : dC7 ≠ "" ∧ 2000 < dC7.length := ⟨dC7_ne, by rw [dC7_len]; omega⟩
    simp only [createTask, inputC7]
    rw [if_neg ht1, if_neg ht2, if_pos hd]

/-- C7 amended: `createTask` validates before touching remote state and, with
a user present, fails fast with a typed error — issuing no remote call —
exactly when the trimmed title is empty, the trimmed title exceeds 500
characters, or the description is present, non-empty, and its UNTRIMMED
length exceeds 2000 characters; on input passing these checks no validation
error is raised and the remote insert payload is produced. -/
theorem create_validation_exact (uid : String) (input : CreateTaskInput) :
    (∃ e, createTask (some uid) input = .error e) ↔
      (jsTrim input.title = "" ∨ 500 < (jsTrim input.title).length ∨
        ∃ d, input.description = some d ∧ d ≠ "" ∧ 2000 < d.length) := by
  cases hd : input.description with
  | none =>
    by_cases h1 : jsTrim input.title = ""
    · simp [createTask, h1, hd]
    · by_cases h2 : 500 < (jsTrim input.title).length
      · simp [createTask, h1, h2, hd]
      · simp [createTask, h1, h2, hd]
  | some d =>
    by_cases h1 : jsTrim input.title = ""
    · simp [createTask, h1, hd]
    · by_cases h2 : 500 < (jsTrim input.title).length
      · simp [createTask, h1, h2, hd]
      · by_cases h3 : d ≠ "" ∧ 2000 < d.length
        · simp [createTask, h1, h2, hd, h3]
        · simp [createTask, h1, h2, hd, h3]

-- C8: the missing `userId` guard in `toggleTask`.

def tasksC8 : List Task := [⟨"t1", "A", "Buy milk", none, false, .normal, none, 0, 0⟩]

/-- C8 failing behaviour, evaluated: with no authenticated user (`userId`
absent), `toggleTask("t1", false)` does not fail fast — it applies the
optimistic flip to the local collection and issues the remote update with an
absent user id, returning normally instead of throwing a typed error.
`createTask` under the same condition throws `User not authenticated`,
showing the guard the spec expects and `toggleTask` lacks. -/
theorem toggle_missing_userid_guard :
    toggleTask none "t1" false none tasksC8 none =
      .ok ⟨[⟨"t1", "A", "Buy milk", none, true, .normal, none, 0, 0⟩], none,
        ⟨"t1", none, true⟩⟩ ∧
    createTask none ⟨"Buy milk", none, none, none⟩ =
      .error ⟨"User not authenticated"⟩ := by
  exact ⟨rfl, rfl⟩

-- C10: `updateTask` stores the verbatim, untrimmed title.

/-- C10: when the patch contains a title `t` whose trimmed value is non-empty
and of length at most 500, `updateTask` passes validation and both the
optimistic local replacement and the remote `.update(updates)` payload carry
the verbatim `t` — surrounding whitespace included — not the trimmed value
that was validated. -/
theorem update_uses_verbatim_title (uid taskId : String) (p : UpdatePatch)
    (t : String) (ts : List Task) (hpt : p.title = some t)
    (h1 : jsTrim t ≠ "") (h2 : (jsTrim t).length ≤ 500) :
    ∃ res, updateTaskStart (some uid) taskId p ts = .ok res ∧
      res.tasks = optUpdate taskId p ts ∧
      (∀ t' ∈ res.tasks, t'.id = taskId → t'.title = t) ∧
      res.request.fields = p ∧ res.request.fields.title = some t := by
  have h2' : ¬ 500 < (jsTrim t).length := Nat.not_lt.mpr h2
  refine ⟨⟨optUpdate taskId p ts, none, ⟨taskId, uid, p⟩⟩, ?_, rfl, ?_, rfl, hpt⟩
  · simp only [updateTaskStart, hpt]
    rw [if_neg h1, if_neg h2']
  · intro t' ht' hid
    simp only [optUpdate, List.mem_map] at ht'
    obtain ⟨u, hu, hue⟩ := ht'
    subst hue
    by_cases h : (u.id == taskId) = true
    · simp [h, applyPatch, hpt]
    · simp only [h, Bool.false_eq_true, if_false] at hid
      exact absurd hid (by simpa using h)

/-- Witness for C10: a patch whose title ` hi ` carries surrounding
whitespace; the optimistic row and the remote payload keep it verbatim. -/
theorem update_uses_verbatim_title_witness :
    jsTrim " hi " ≠ " hi " ∧
    (∃ res, updateTaskStart (some "A") "t1" ⟨some " hi ", none, none, none⟩
        [⟨"t1", "A", "old", none, false, .normal, none, 0, 0⟩] = .ok res ∧
      res.tasks = optUpdate "t1" ⟨some " hi ", none, none, none⟩
        [⟨"t1", "A", "old", none, false, .normal, none, 0, 0⟩] ∧
      (∀ t' ∈ res.tasks, t'.id = "t1" → t'.title = " hi ") ∧
      res.request.fields = ⟨some " hi ", none, none, none⟩ ∧
      res.request.fields.title = some " hi ") :=
  ⟨by decide,
    update_uses_verbatim_title "A" "t1" _ " hi " _ rfl (by decide) (by decide)⟩

end TaskSync
